import Mathlib

/-!
Verification of `src/relic/chunk_formats/Dow2/model/writer.py` from
Relic-Tool-Chunky-Core: the OBJ/MTL writer for DOW2 model chunks.

The low-level line emitters (`ObjWriter` / `MtlWriter` from
`relic.file_formats.wavefront_obj`) and the chunk data declarations
(`model_chunky.py`, `mtrl_chunk.py`) are external collaborators not present
in the sources; directives are therefore modelled as abstract constructors
carrying exactly the arguments the writer passes, and the chunk records as
plain structures carrying the fields the writer reads.  Vertex coordinates
(Python floats) are opaque to the writer, so geometry types are parametric
in a scalar type `α`.
-/

namespace Dow2Writer

/-- Errors raised by the writer.  `valueError` is Python's `ValueError`
from tuple unpacking; `unsupportedShader` is the
`NotImplementedError(chunk.info.shader_name)` of `fetch_textures_from_mtrl`;
`unknownTextureSlot` is the `ValueError` raised by the
`TextureType(chunk.property_name)` enum lookup; `unsupportedTextureSlot` is
the bare `NotImplementedError` of the final `else` in `write_mtrl_to_mtl`. -/
inductive WriterError where
  | valueError : WriterError
  | unsupportedShader (shaderName : String) : WriterError
  | unknownTextureSlot (propertyName : String) : WriterError
  | unsupportedTextureSlot : WriterError
  deriving DecidableEq, Repr

/-- Modelled from the spec: `MaterialVarType` from
`relic.chunk_formats.Shared.mtrl_chunk` is not in the sources; per the spec a
material variable is a tagged record with kind in `{Texture, other}`. -/
inductive MaterialVarType where
  | Texture : MaterialVarType
  | Other : MaterialVarType
  deriving DecidableEq, Repr

/-- Modelled from the spec: `VarChunk` from
`relic.chunk_formats.Shared.mtrl_chunk` is not in the sources; per the spec a
MaterialVariable is `{kind, property-name, argument}`; the writer reads
`var_type`, `property_name` and `args`. -/
structure VarChunk where
  var_type : MaterialVarType
  property_name : String
  args : String
  deriving DecidableEq, Repr

/-- Modelled from the spec: the `info` sub-chunk of a material; the writer
reads `chunk.info.shader_name` (the shader-variant identifier string). -/
structure MtrlInfoChunk where
  shader_name : String
  deriving DecidableEq, Repr

/-- Modelled from the spec: `MtrlChunk` from
`relic.chunk_formats.Dow2.model.model_chunky` is not in the sources; per the
spec a Material has a name, a shader-variant identifier and an ordered
sequence of MaterialVariable; the writer reads `name`, `info` and `vars`. -/
structure MtrlChunk where
  name : String
  info : MtrlInfoChunk
  vars : List VarChunk
  deriving DecidableEq, Repr

/-- `class TextureType(Enum)` from `writer.py`. -/
inductive TextureType where
  | Team | Dirt | BadgeSecondary | BadgePrimary | Normal
  | Diffuse | Emissive | Specular | Occlusion | Gloss
  deriving DecidableEq, Repr

/-- The canonical wire string of each `TextureType` member (the enum values
in `writer.py`). -/
def TextureType.value : TextureType → String
  | .Team => "teamTex"
  | .Dirt => "dirtTex"
  | .BadgeSecondary => "badge2Tex"
  | .BadgePrimary => "badge1Tex"
  | .Normal => "normalMap"
  | .Diffuse => "diffuseTex"
  | .Emissive => "emissiveTex"
  | .Specular => "specularTex"
  | .Occlusion => "occlusionTex"
  | .Gloss => "glossTex"

/-- The members of `TextureType` in declaration order. -/
def TextureType.members : List TextureType :=
  [.Team, .Dirt, .BadgeSecondary, .BadgePrimary, .Normal,
   .Diffuse, .Emissive, .Specular, .Occlusion, .Gloss]

/-- `TextureType(s)`: Python's by-value enum lookup (`_value2member_map_`),
returning the member whose value equals `s`, or raising `ValueError(s)`
(modelled as `none`). -/
def textureTypeLookup (s : String) : Option TextureType :=
  TextureType.members.find? (fun t => t.value == s)

/-- `class SupportedShaders(Enum)` from `writer.py`. -/
inductive SupportedShaders where
  | Dow2_Unit | Dow2_Unit_2Uv
  deriving DecidableEq, Repr

/-- The wire string of each `SupportedShaders` member. -/
def SupportedShaders.value : SupportedShaders → String
  | .Dow2_Unit => "dow2_unit"
  | .Dow2_Unit_2Uv => "dow2_unit_2uv"

/-- `SupportedShaders.__eq__` against a string compares the enum value with
the string, so `shader_name in [Dow2_Unit, Dow2_Unit_2Uv]` tests whether any
member's value equals `shader_name`. -/
def shaderNameSupported (shaderName : String) : Bool :=
  [SupportedShaders.Dow2_Unit, SupportedShaders.Dow2_Unit_2Uv].any
    (fun s => s.value == shaderName)

/-- The observable outcome of running a Python generator to exhaustion:
the values it yielded in order, then optionally the exception that
terminated it.  Yields listed in `yields` were produced before any error. -/
structure GenResult (β : Type) where
  yields : List β
  error : Option WriterError
  deriving DecidableEq, Repr

/-- `fetch_textures_from_dow2_unit(chunks)`: a generator that skips
non-`Texture` variables, yields `(TextureType(property_name), args)` for
each `Texture` variable, and raises `ValueError(property_name)` (here
`unknownTextureSlot`) when the enum lookup fails, yielding nothing for that
variable and ending the generator. -/
def fetch_textures_from_dow2_unit : List VarChunk → GenResult (TextureType × String)
  | [] => ⟨[], none⟩
  | c :: rest =>
    if c.var_type ≠ MaterialVarType.Texture then
      fetch_textures_from_dow2_unit rest
    else
      match textureTypeLookup c.property_name with
      | none => ⟨[], some (.unknownTextureSlot c.property_name)⟩
      | some t =>
        let r := fetch_textures_from_dow2_unit rest
        ⟨(t, c.args) :: r.yields, r.error⟩

/-- `fetch_textures_from_mtrl(chunk)`: if `chunk.info.shader_name` is in
`[Dow2_Unit, Dow2_Unit_2Uv]` (value comparison), return the
`fetch_textures_from_dow2_unit` generator over `chunk.vars`; otherwise raise
`NotImplementedError(chunk.info.shader_name)`.  The shader check happens at
call time, before any iteration. -/
def fetch_textures_from_mtrl (chunk : MtrlChunk) :
    Except WriterError (GenResult (TextureType × String)) :=
  if shaderNameSupported chunk.info.shader_name then
    .ok (fetch_textures_from_dow2_unit chunk.vars)
  else
    .error (.unsupportedShader chunk.info.shader_name)

/-- Directives emitted through the `MtlWriter` collaborator, one constructor
per method the writer calls, carrying exactly the arguments passed. -/
inductive MtlDirective where
  | defaultTexture (name : String)
  | unsupportedTexture (path label : String)
  | textureEmissive (path : String)
  | textureDiffuse (path : String)
  | textureAlpha (path : String)
  | textureNormal (path : String)
  | textureSpecular (path : String)
  deriving DecidableEq, Repr

/-- `b.replace(" ", "_")` for a single-character pattern: character-wise
replacement. -/
def replaceSpaces (l : List Char) : List Char :=
  l.map (fun c => if c = ' ' then '_' else c)

/-- Split a character list at its LAST occurrence of `c`: returns
`some (before, after)` with the occurrence removed, or `none` when `c` does
not occur. -/
def rsplitChar (c : Char) : List Char → Option (List Char × List Char)
  | [] => none
  | x :: xs =>
    match rsplitChar c xs with
    | some (l, r) => some (x :: l, r)
    | none => if x = c then some ([], xs) else none

/-- Remove trailing `'/'` characters (Python `str.rstrip("/")`). -/
def rstripSlashes (l : List Char) : List Char :=
  (l.reverse.dropWhile (fun c => c = '/')).reverse

/-- `posixpath.split(p)` on character lists: split at the last `'/'`; the
head keeps everything before it and is right-stripped of `'/'` unless it
consists only of slashes; with no `'/'` the head is empty. -/
def psplitL (p : List Char) : List Char × List Char :=
  match rsplitChar '/' p with
  | none => ([], p)
  | some (l, r) =>
    let head := l ++ ['/']
    (if head.all (fun c => c = '/') then head else rstripSlashes head, r)

/-- `posixpath.join(a, b)` on character lists: `b` absolute wins; otherwise
concatenate, inserting `'/'` unless `a` is empty or already ends in `'/'`. -/
def pjoinL (a b : List Char) : List Char :=
  if b.head? = some '/' then b
  else if a = [] ∨ a.getLast? = some '/' then a ++ b
  else a ++ '/' :: b

/-- `os.path.split` on strings. -/
def psplit (p : String) : String × String :=
  let r := psplitL p.data
  (String.mk r.1, String.mk r.2)

/-- `os.path.join` (two arguments) on strings. -/
def pjoin (a b : String) : String :=
  String.mk (pjoinL a.data b.data)

/-- The `force_valid` block of `write_mtrl_to_mtl`:
`d, b = split(full_texture); full_texture = join(d, b.replace(" ", "_"))`. -/
def sanitize_segment (full : String) : String :=
  let s := psplitL full.data
  String.mk (pjoinL s.1 (replaceSpaces s.2))

/-- Path resolution for one texture in `write_mtrl_to_mtl`:
`full = join(texture_root, texture) if texture_root else texture`, then
`full += texture_ext`, then the `force_valid` sanitization.  `texture_root`
is tested for Python truthiness (`None` and `""` both skip the join);
`ext` is the already-defaulted `texture_ext or ""`. -/
def resolve_full_texture (texture_root : Option String) (ext : String)
    (force_valid : Bool) (texture : String) : String :=
  let full :=
    match texture_root with
    | some r => if r = "" then texture else pjoin r texture
    | none => texture
  let full := full ++ ext
  if force_valid then sanitize_segment full else full

/-- The slot-dispatch `if/elif` chain of `write_mtrl_to_mtl`, in source
order, producing the `MtlWriter` calls for one `(tex_type, full_texture)`
pair; the final `else` raises a bare `NotImplementedError`. -/
def dispatch_texture (t : TextureType) (full : String) :
    Except WriterError (List MtlDirective) :=
  if t = .Team then .ok [.unsupportedTexture full "Team"]
  else if t = .Dirt then .ok [.unsupportedTexture full "Dirt"]
  else if t = .BadgePrimary then .ok [.unsupportedTexture full "Badge 1"]
  else if t = .BadgeSecondary then .ok [.unsupportedTexture full "Badge 2"]
  else if t = .Emissive then .ok [.textureEmissive full]
  else if t = .Occlusion then .ok [.unsupportedTexture full "Occlusion"]
  else if t = .Gloss then .ok [.unsupportedTexture full "Gloss"]
  else if t = .Diffuse then .ok [.textureDiffuse full, .textureAlpha full]
  else if t = .Normal then .ok [.textureNormal full]
  else if t = .Specular then .ok [.textureSpecular full]
  else .error .unsupportedTextureSlot

/-- The body of `write_mtrl_to_mtl`'s `for` loop over the generator's
yields: resolve the path and dispatch each pair in order; a dispatch error
aborts the loop with no output for that pair. -/
def emit_textures (texture_root : Option String) (ext : String)
    (force_valid : Bool) :
    List (TextureType × String) → List MtlDirective × Option WriterError
  | [] => ([], none)
  | (t, texture) :: rest =>
    let full := resolve_full_texture texture_root ext force_valid texture
    match dispatch_texture t full with
    | .error e => ([], some e)
    | .ok ds =>
      let r := emit_textures texture_root ext force_valid rest
      (ds ++ r.1, r.2)

/-- `write_mtrl_to_mtl(stream, chunk, texture_root, texture_ext,
force_valid)`: emits `write_default_texture(chunk.name)`, then iterates
`fetch_textures_from_mtrl(chunk)` resolving and dispatching each pair.
Returns the directives appended to the stream, paired with the exception
propagated (if any); the Python return value (`stream.tell() - start`, a
byte count produced by the external writer's formatting) is not modelled.
`texture_ext` defaults through `texture_ext or ""`. -/
def write_mtrl_to_mtl (chunk : MtrlChunk) (texture_root : Option String)
    (texture_ext : Option String) (force_valid : Bool) :
    List MtlDirective × Option WriterError :=
  let ext := texture_ext.getD ""
  let base := [MtlDirective.defaultTexture chunk.name]
  match fetch_textures_from_mtrl chunk with
  | .error e => (base, some e)
  | .ok gen =>
    let r := emit_textures texture_root ext force_valid gen.yields
    (base ++ r.1, r.2 <|> gen.error)

/-- Modelled from the spec: a vertex record from the external parser;
per the spec position/normal are 3 scalars and uv is 2; the scalar type is
opaque to the writer (it only forwards the values). -/
structure TrimVertex (α : Type) where
  position : α × α × α
  normal : α × α × α
  uv : α × α
  deriving DecidableEq, Repr

/-- Modelled from the spec: `TrimDataChunk` from
`relic.chunk_formats.Shared.mesh_chunk` is not in the sources; per the spec
a SubMesh has a material name, an ordered sequence of vertices and an
ordered sequence of unsigned integer indices; the writer reads
`material_name`, `vertexes` and `indexes`. -/
structure TrimDataChunk (α : Type) where
  material_name : String
  vertexes : List (TrimVertex α)
  indexes : List Nat
  deriving DecidableEq, Repr

/-- Directives emitted through the `ObjWriter` collaborator, one
constructor per method the writer calls. `indexFace` carries the three
GLOBAL indices as they appear in the output (see `write_index_face`). -/
inductive ObjDirective (α : Type) where
  | materialLibrary (name : String)
  | objectName (name : String)
  | vertexPosition (x y z : α)
  | vertexNormal (x y z : α)
  | vertexUv (u v : α)
  | useMaterial (name : String)
  | indexFace (a b c : Nat)
  deriving DecidableEq, Repr

/-- Modelled from the spec: `ObjWriter.write_index_face` from
`relic.file_formats.wavefront_obj` is not in the sources; per the spec,
with `zero_based=True` (as `write_trim_data_to_obj` passes) a local index
`k` with offset `v_offset` is emitted as `v_offset + k + 1`. -/
def write_index_face (a b c : Nat) (offset : Nat) : ObjDirective α :=
  .indexFace (offset + a + 1) (offset + b + 1) (offset + c + 1)

/-- `s.rsplit(".", maxsplit=1)`: split at the LAST `"."`; a string without
`"."` gives the one-element list `[s]`. -/
def rsplit_dot_1 (s : String) : List String :=
  match rsplitChar '.' s.data with
  | none => [s]
  | some (l, r) => [String.mk l, String.mk r]

/-- Python tuple unpacking `_, name = xs` of a list: succeeds only when the
list has exactly two elements, else raises `ValueError`. -/
def unpack2_list (xs : List String) : Except WriterError (String × String) :=
  match xs with
  | [a, b] => .ok (a, b)
  | _ => .error .valueError

/-- Python tuple unpacking `_, name = s` of a STRING: iterates characters,
so it succeeds only when `s` has exactly two characters, binding each as a
one-character string, else raises `ValueError`. -/
def unpack2_string (s : String) : Except WriterError (String × String) :=
  match s.data with
  | [a, b] => .ok (String.mk [a], String.mk [b])
  | _ => .error .valueError

/-- The name-derivation line of `write_trim_data_to_obj`:
`_, name = name or chunk.material_name.rsplit(".", maxsplit=1)`.
A truthy (non-`None`, non-empty) `name` is unpacked itself (as a string);
otherwise the two-element result of `rsplit` is unpacked, keeping the
second component in either case.  `name_from_material` is the falsy
branch: unpack `material_name.rsplit(".", maxsplit=1)`. -/
def name_from_material (material_name : String) : Except WriterError String :=
  (unpack2_list (rsplit_dot_1 material_name)).map (fun p => p.2)

/-- The dispatch on Python truthiness of `name` in the name-derivation
line: a non-`None`, non-empty `name` is unpacked itself; `None` and the
empty string fall through to the material name. -/
def derive_name (name : Option String) (material_name : String) :
    Except WriterError String :=
  match name with
  | some s =>
    if s = "" then name_from_material material_name
    else (unpack2_string s).map (fun p => p.2)
  | none => name_from_material material_name

/-- The per-vertex directives of `write_trim_data_to_obj`: position, normal
and uv for each vertex in input order. -/
def vertex_directives {α : Type} (vs : List (TrimVertex α)) : List (ObjDirective α) :=
  vs.flatMap (fun v =>
    [.vertexPosition v.position.1 v.position.2.1 v.position.2.2,
     .vertexNormal v.normal.1 v.normal.2.1 v.normal.2.2,
     .vertexUv v.uv.1 v.uv.2])

/-- The face directives of `write_trim_data_to_obj`: for each
`index in range(len(chunk.indexes) // 3)` the triple
`(indexes[3i], indexes[3i+1], indexes[3i+2])` is passed to
`write_index_face` with `offset=v_offset, zero_based=True`. -/
def face_directives {α : Type} (indexes : List Nat) (v_offset : Nat) :
    List (ObjDirective α) :=
  (List.range (indexes.length / 3)).map (fun i =>
    write_index_face (indexes.getD (3 * i) 0) (indexes.getD (3 * i + 1) 0)
      (indexes.getD (3 * i + 2) 0) v_offset)

/-- `write_trim_data_to_obj(stream, chunk, name, v_offset, ...)`: derives
the object name, emits it, then the vertex triplets, then
`use_material(chunk.material_name)`, then the faces; returns
`v_offset + len(chunk.vertexes)`.  The directives appended to the stream
are returned alongside the return value; a `ValueError` from name
derivation propagates. -/
def write_trim_data_to_obj {α : Type} (chunk : TrimDataChunk α)
    (name : Option String) (v_offset : Nat) :
    Except WriterError (List (ObjDirective α) × Nat) :=
  match derive_name name chunk.material_name with
  | .error e => .error e
  | .ok nm =>
    .ok (ObjDirective.objectName nm :: vertex_directives chunk.vertexes
          ++ ObjDirective.useMaterial chunk.material_name
            :: face_directives chunk.indexes v_offset,
         v_offset + chunk.vertexes.length)

/-- Modelled from the spec: `ModelChunky` from `model_chunky.py` is not in
the sources.  `write_model_to_obj` reaches the sub-mesh list through
`chunk.modl.mesh.mgrp.mesh.imdg.mesh.imod.meshs` and each mesh's trim data
through `mesh.trim.data`; `write_model_to_mtl` reads `chunk.modl.mtrls`.
The model is flattened to those two lists (the intermediate single-field
wrappers carry nothing else the writer reads). -/
structure ModelChunky (α : Type) where
  meshs : List (TrimDataChunk α)
  mtrls : List MtrlChunk
  deriving DecidableEq, Repr

/-- The loop of `write_model_to_obj`:
`v_offset += write_trim_data_to_obj(stream, mesh.trim.data, v_offset=v_offset)`
for each mesh in order.  Note the `+=`: the RETURN VALUE of
`write_trim_data_to_obj` (which is already `v_offset + len(vertexes)`) is
ADDED to the running `v_offset`, not assigned to it. -/
def write_model_loop {α : Type} :
    List (TrimDataChunk α) → Nat → Except WriterError (List (ObjDirective α) × Nat)
  | [], v_offset => .ok ([], v_offset)
  | m :: rest, v_offset =>
    match write_trim_data_to_obj m none v_offset with
    | .error e => .error e
    | .ok (ds, ret) =>
      match write_model_loop rest (v_offset + ret) with
      | .error e => .error e
      | .ok (ds', fin) => .ok (ds ++ ds', fin)

/-- `write_model_to_obj(stream, chunk)`: starts `v_offset = 0`, runs the
mesh loop, returns the final `v_offset`. -/
def write_model_to_obj {α : Type} (chunk : ModelChunky α) :
    Except WriterError (List (ObjDirective α) × Nat) :=
  write_model_loop chunk.meshs 0

/-- The total vertex count `Σ vi` of a model's sub-meshes (the value the
spec says `emitModel` returns). -/
def totalVertexCount {α : Type} (chunk : ModelChunky α) : Nat :=
  (chunk.meshs.map (fun m => m.vertexes.length)).sum

/-! ### Spec-side definitions, for refinement comparisons

These follow the SPEC's wording (not the source) and exist only to be
compared with the source-derived definitions above. -/

/-- Spec-side: the canonical wire-string table of §3 of the spec, mapping a
property-name string to its TextureSlot, `none` when it matches no
enumerated wire string. -/
def specSlotOfWire (s : String) : Option TextureType :=
  if s = "teamTex" then some .Team
  else if s = "dirtTex" then some .Dirt
  else if s = "badge2Tex" then some .BadgeSecondary
  else if s = "badge1Tex" then some .BadgePrimary
  else if s = "normalMap" then some .Normal
  else if s = "diffuseTex" then some .Diffuse
  else if s = "emissiveTex" then some .Emissive
  else if s = "specularTex" then some .Specular
  else if s = "occlusionTex" then some .Occlusion
  else if s = "glossTex" then some .Gloss
  else none

/-- Spec-side: `TextureSlotMapper.extract` as the spec words it: skip
non-Texture variables; a Texture variable whose property-name matches a
canonical wire string yields `(slot, argument)`, in input order; a Texture
variable matching none fails with UnknownTextureSlot carrying the offending
string, emitting no output for that variable. -/
def specTextureExtract : List VarChunk → GenResult (TextureType × String)
  | [] => ⟨[], none⟩
  | c :: rest =>
    if c.var_type = MaterialVarType.Texture then
      match specSlotOfWire c.property_name with
      | some t =>
        let r := specTextureExtract rest
        ⟨(t, c.args) :: r.yields, r.error⟩
      | none => ⟨[], some (.unknownTextureSlot c.property_name)⟩
    else specTextureExtract rest

/-- Spec-side: sanitization as the spec words it: spaces replaced by
underscores in the final path segment only, every character up to and
including the last `'/'` left unchanged; with no `'/'` the whole path is
the final segment. -/
def specSanitize (p : String) : String :=
  match rsplitChar '/' p.data with
  | none => String.mk (replaceSpaces p.data)
  | some (l, r) => String.mk (l ++ '/' :: replaceSpaces r)

/-- The inputs on which the source's split/join sanitization agrees with
the spec's wording: either the path has no `'/'`, or everything before the
final segment is slashes only, or the character just before the last `'/'`
is not itself a `'/'` (a duplicate separator there is collapsed by the
split/join round trip). -/
def sanitizeFaithful (p : String) : Bool :=
  match rsplitChar '/' p.data with
  | none => true
  | some (l, _) => (l ++ ['/']).all (fun c => c = '/') || l.getLast? != some '/'

/-! ### Concrete inputs used by the evaluation theorems -/

/-- A single vertex with opaque scalar values fixed to `0 : Int`. -/
def unitVertex : TrimVertex Int := ⟨(0, 0, 0), (0, 0, 0), (0, 0)⟩

/-- A sub-mesh with exactly one vertex. -/
def oneVertexMesh (mat : String) (indexes : List Nat) : TrimDataChunk Int :=
  ⟨mat, [unitVertex], indexes⟩

/-- A model of two one-vertex sub-meshes (total vertex count 2). -/
def modelTwoUnitMeshes : ModelChunky Int :=
  ⟨[oneVertexMesh "m.a" [], oneVertexMesh "m.b" []], []⟩

/-- A model of three one-vertex sub-meshes, the third holding one triangle
of local indices `(0, 0, 0)` (total vertex count 3). -/
def modelThreeUnitMeshes : ModelChunky Int :=
  ⟨[oneVertexMesh "m.a" [], oneVertexMesh "m.b" [], oneVertexMesh "m.c" [0, 0, 0]], []⟩

/-- The directives `write_model_to_obj` emits for `modelTwoUnitMeshes`. -/
def modelTwoDirectives : List (ObjDirective Int) :=
  [.objectName "a", .vertexPosition 0 0 0, .vertexNormal 0 0 0, .vertexUv 0 0,
   .useMaterial "m.a",
   .objectName "b", .vertexPosition 0 0 0, .vertexNormal 0 0 0, .vertexUv 0 0,
   .useMaterial "m.b"]

/-- The directives `write_model_to_obj` emits for `modelThreeUnitMeshes`. -/
def modelThreeDirectives : List (ObjDirective Int) :=
  [.objectName "a", .vertexPosition 0 0 0, .vertexNormal 0 0 0, .vertexUv 0 0,
   .useMaterial "m.a",
   .objectName "b", .vertexPosition 0 0 0, .vertexNormal 0 0 0, .vertexUv 0 0,
   .useMaterial "m.b",
   .objectName "c", .vertexPosition 0 0 0, .vertexNormal 0 0 0, .vertexUv 0 0,
   .useMaterial "m.c", .indexFace 4 4 4]

/-- A vertex-free sub-mesh with material name `"a.b"`. -/
def meshAB : TrimDataChunk Int := ⟨"a.b", [], []⟩

/-- A vertex-free sub-mesh with material name `"teamcolor.helmet"`. -/
def meshTeamcolor : TrimDataChunk Int := ⟨"teamcolor.helmet", [], []⟩

/-- A material whose shader-variant string `"foo"` matches no supported
shader. -/
def badShaderChunk : MtrlChunk := ⟨"mat", ⟨"foo"⟩, []⟩

/-- The material of the spec's diffuse scenario: shader `"dow2_unit"`, one
Texture variable `("diffuseTex", "tex/rifle_d")`. -/
def exampleDiffuseChunk : MtrlChunk :=
  ⟨"mat", ⟨"dow2_unit"⟩, [⟨.Texture, "diffuseTex", "tex/rifle_d"⟩]⟩

/-! ### Helper lemmas -/

theorem rsplitChar_none_iff (c : Char) (l : List Char) :
    rsplitChar c l = none ↔ c ∉ l := by
  induction l with
  | nil => simp [rsplitChar]
  | cons x xs ih =>
    simp only [rsplitChar, List.mem_cons]
    cases h : rsplitChar c xs with
    | some p =>
      have hx : c ∈ xs := by
        by_contra hc
        rw [ih.mpr hc] at h
        exact Option.noConfusion h
      simp [hx]
    | none =>
      have hx : c ∉ xs := ih.mp h
      by_cases hxc : x = c
      · subst hxc
        simp [hx]
      · simp only [if_neg hxc, hx, or_false, true_iff]
        exact fun hcx => hxc hcx.symm

theorem rsplitChar_not_mem_right (c : Char) :
    ∀ (l a b : List Char), rsplitChar c l = some (a, b) → c ∉ b := by
  intro l
  induction l with
  | nil => intro a b h; exact Option.noConfusion h
  | cons x xs ih =>
    intro a b h
    simp only [rsplitChar] at h
    cases hx : rsplitChar c xs with
    | some p =>
      rw [hx] at h
      obtain ⟨p1, p2⟩ := p
      injection h with h'
      cases h'
      exact ih p1 _ hx
    | none =>
      rw [hx] at h
      by_cases hxc : x = c
      · rw [if_pos hxc] at h
        injection h with h'
        cases h'
        exact (rsplitChar_none_iff c _).mp hx
      · rw [if_neg hxc] at h
        exact Option.noConfusion h

theorem rsplitChar_last (c : Char) (pre suf : List Char) (h : c ∉ suf) :
    rsplitChar c (pre ++ c :: suf) = some (pre, suf) := by
  induction pre with
  | nil =>
    simp only [List.nil_append, rsplitChar, (rsplitChar_none_iff c suf).mpr h]
    simp
  | cons x xs ih =>
    have ih' : rsplitChar c (xs.append (c :: suf)) = some (xs, suf) := ih
    simp only [List.cons_append, rsplitChar, ih']

theorem dropWhile_slash_of_getLast (l : List Char) (h : l.getLast? ≠ some '/') :
    l.reverse.dropWhile (fun c => c = '/') = l.reverse := by
  cases hr : l.reverse with
  | nil => rfl
  | cons y ys =>
    have hy : y ≠ '/' := by
      intro hyc
      apply h
      rw [← List.head?_reverse, hr, hyc]
      rfl
    simp [List.dropWhile_cons, hy]

theorem rstripSlashes_append_slash (l : List Char) (h : l.getLast? ≠ some '/') :
    rstripSlashes (l ++ ['/']) = l := by
  unfold rstripSlashes
  rw [List.reverse_append]
  simp only [List.reverse_cons, List.reverse_nil, List.nil_append, List.singleton_append,
    List.dropWhile_cons]
  simp only [decide_True, if_true]
  rw [dropWhile_slash_of_getLast l h, List.reverse_reverse]

theorem shaderNameSupported_iff (s : String) :
    shaderNameSupported s = true ↔ (s = "dow2_unit" ∨ s = "dow2_unit_2uv") := by
  simp only [shaderNameSupported, SupportedShaders.value, List.any_cons, List.any_nil,
    Bool.or_false, Bool.or_eq_true, beq_iff_eq]
  constructor
  · rintro (h | h)
    · exact Or.inl h.symm
    · exact Or.inr h.symm
  · rintro (h | h)
    · exact Or.inl h.symm
    · exact Or.inr h.symm

theorem unpack2_string_of_ne2 (l : List Char) (h : l.length ≠ 2) :
    unpack2_string (String.mk l) = .error .valueError := by
  match l with
  | [] => rfl
  | [a] => rfl
  | [a, b] => exact absurd rfl h
  | a :: b :: x :: t => rfl

theorem unpack2_string_pair (a b : Char) :
    unpack2_string (String.mk [a, b]) = .ok (String.mk [a], String.mk [b]) := rfl

theorem textureTypeLookup_eq_spec (s : String) :
    textureTypeLookup s = specSlotOfWire s := by
  have e1 : ∀ t : String, ¬ s = t → (t == s) = false :=
    fun t ht => beq_eq_false_iff_ne.mpr fun he => ht he.symm
  have e2 : ∀ t : String, s = t → (t == s) = true :=
    fun t ht => beq_iff_eq.mpr ht.symm
  simp only [textureTypeLookup, TextureType.members, List.find?, TextureType.value,
    specSlotOfWire]
  by_cases h1 : s = "teamTex"
  · rw [e2 _ h1, if_pos h1]
  · rw [e1 _ h1, if_neg h1]
    by_cases h2 : s = "dirtTex"
    · rw [e2 _ h2, if_pos h2]
    · rw [e1 _ h2, if_neg h2]
      by_cases h3 : s = "badge2Tex"
      · rw [e2 _ h3, if_pos h3]
      · rw [e1 _ h3, if_neg h3]
        by_cases h4 : s = "badge1Tex"
        · rw [e2 _ h4, if_pos h4]
        · rw [e1 _ h4, if_neg h4]
          by_cases h5 : s = "normalMap"
          · rw [e2 _ h5, if_pos h5]
          · rw [e1 _ h5, if_neg h5]
            by_cases h6 : s = "diffuseTex"
            · rw [e2 _ h6, if_pos h6]
            · rw [e1 _ h6, if_neg h6]
              by_cases h7 : s = "emissiveTex"
              · rw [e2 _ h7, if_pos h7]
              · rw [e1 _ h7, if_neg h7]
                by_cases h8 : s = "specularTex"
                · rw [e2 _ h8, if_pos h8]
                · rw [e1 _ h8, if_neg h8]
                  by_cases h9 : s = "occlusionTex"
                  · rw [e2 _ h9, if_pos h9]
                  · rw [e1 _ h9, if_neg h9]
                    by_cases h10 : s = "glossTex"
                    · rw [e2 _ h10, if_pos h10]
                    · rw [e1 _ h10, if_neg h10]


theorem psplitL_none (p : List Char) (h : rsplitChar '/' p = none) :
    psplitL p = ([], p) := by
  unfold psplitL
  rw [h]

theorem psplitL_some (p l r : List Char) (h : rsplitChar '/' p = some (l, r)) :
    psplitL p =
      (if (l ++ ['/']).all (fun c => c = '/') then l ++ ['/']
       else rstripSlashes (l ++ ['/']), r) := by
  unfold psplitL
  rw [h]

theorem pjoinL_nil_left (b : List Char) : pjoinL [] b = b := by
  unfold pjoinL
  by_cases hh : b.head? = some '/'
  · rw [if_pos hh]
  · rw [if_neg hh, if_pos (Or.inl rfl)]
    rfl

theorem pjoinL_no_slash_last (a b : List Char) (ha : a ≠ []) (hlast : a.getLast? ≠ some '/')
    (hb : b.head? ≠ some '/') : pjoinL a b = a ++ '/' :: b := by
  unfold pjoinL
  rw [if_neg hb, if_neg (fun hor => hor.elim ha hlast)]

theorem pjoinL_slash_last (a b : List Char) (hlast : a.getLast? = some '/')
    (hb : b.head? ≠ some '/') : pjoinL a b = a ++ b := by
  unfold pjoinL
  rw [if_neg hb, if_pos (Or.inr hlast)]

theorem replaceSpaces_head_ne_slash (r : List Char) (h : ('/' : Char) ∉ r) :
    (replaceSpaces r).head? ≠ some '/' := by
  cases r with
  | nil => simp [replaceSpaces]
  | cons x xs =>
    have hx : x ≠ '/' := fun he => h (he ▸ List.mem_cons_self x xs)
    simp only [replaceSpaces, List.map_cons, List.head?_cons]
    intro he
    injection he with he'
    by_cases hsp : x = ' '
    · rw [if_pos hsp] at he'
      exact absurd he' (by decide)
    · rw [if_neg hsp] at he'
      exact hx he'

theorem getLast_append_slash (l : List Char) : (l ++ ['/']).getLast? = some '/' := by
  simp

theorem dispatch_texture_ok (t : TextureType) (full : String) :
    ∃ ds, dispatch_texture t full = Except.ok ds := by
  cases t <;> exact ⟨_, rfl⟩

theorem emit_textures_error_ne_slot (root : Option String) (ext : String) (fv : Bool)
    (l : List (TextureType × String)) :
    (emit_textures root ext fv l).2 ≠ some WriterError.unsupportedTextureSlot := by
  induction l with
  | nil => simp [emit_textures]
  | cons p rest ih =>
    obtain ⟨t, texture⟩ := p
    obtain ⟨ds, hd⟩ := dispatch_texture_ok t (resolve_full_texture root ext fv texture)
    unfold emit_textures
    show (match dispatch_texture t (resolve_full_texture root ext fv texture) with
      | Except.error e => (([] : List MtlDirective), some e)
      | Except.ok ds =>
        (ds ++ (emit_textures root ext fv rest).1, (emit_textures root ext fv rest).2)).2 ≠
      some WriterError.unsupportedTextureSlot
    rw [hd]
    exact ih

theorem gen_error_ne_slot (vars : List VarChunk) :
    (fetch_textures_from_dow2_unit vars).error ≠ some WriterError.unsupportedTextureSlot := by
  induction vars with
  | nil => simp [fetch_textures_from_dow2_unit]
  | cons c rest ih =>
    unfold fetch_textures_from_dow2_unit
    by_cases hv : c.var_type ≠ MaterialVarType.Texture
    · rw [if_pos hv]
      exact ih
    · rw [if_neg hv]
      cases hl : textureTypeLookup c.property_name with
      | none => simp
      | some t =>
        show (fetch_textures_from_dow2_unit rest).error ≠ some WriterError.unsupportedTextureSlot
        exact ih

theorem fetch_mtrl_ok (chunk : MtrlChunk)
    (hs : shaderNameSupported chunk.info.shader_name = true) :
    fetch_textures_from_mtrl chunk = .ok (fetch_textures_from_dow2_unit chunk.vars) := by
  unfold fetch_textures_from_mtrl
  rw [if_pos hs]

theorem fetch_mtrl_error (chunk : MtrlChunk)
    (hs : ¬ shaderNameSupported chunk.info.shader_name = true) :
    fetch_textures_from_mtrl chunk =
      .error (.unsupportedShader chunk.info.shader_name) := by
  unfold fetch_textures_from_mtrl
  rw [if_neg hs]

theorem write_mtrl_ok_shape (chunk : MtrlChunk) (root ext : Option String) (fv : Bool)
    (hs : shaderNameSupported chunk.info.shader_name = true) :
    write_mtrl_to_mtl chunk root ext fv =
      (MtlDirective.defaultTexture chunk.name ::
        (emit_textures root (ext.getD "") fv
          (fetch_textures_from_dow2_unit chunk.vars).yields).1,
       (emit_textures root (ext.getD "") fv
          (fetch_textures_from_dow2_unit chunk.vars).yields).2
         <|> (fetch_textures_from_dow2_unit chunk.vars).error) := by
  unfold write_mtrl_to_mtl
  rw [fetch_mtrl_ok chunk hs]
  rfl

theorem name_from_material_no_dot (mat : String) (h : ('.' : Char) ∉ mat.data) :
    name_from_material mat = .error .valueError := by
  unfold name_from_material rsplit_dot_1
  rw [(rsplitChar_none_iff '.' mat.data).mpr h]
  rfl

theorem name_from_material_dot (mat : String) (pre suf : List Char)
    (hm : mat.data = pre ++ '.' :: suf) (hs : ('.' : Char) ∉ suf) :
    name_from_material mat = .ok (String.mk suf) := by
  unfold name_from_material rsplit_dot_1
  rw [hm, rsplitChar_last '.' pre suf hs]
  rfl

theorem derive_name_none (mat : String) :
    derive_name none mat = name_from_material mat := rfl

theorem derive_name_some_empty (mat : String) :
    derive_name (some "") mat = name_from_material mat := rfl

theorem derive_name_some (s mat : String) (h : s ≠ "") :
    derive_name (some s) mat = (unpack2_string s).map (fun p => p.2) := by
  show (if s = "" then name_from_material mat
        else (unpack2_string s).map (fun p => p.2)) =
    (unpack2_string s).map (fun p => p.2)
  rw [if_neg h]

theorem write_trim_of_derive_error {α : Type} (chunk : TrimDataChunk α)
    (name : Option String) (off : Nat) (e : WriterError)
    (h : derive_name name chunk.material_name = .error e) :
    write_trim_data_to_obj chunk name off = .error e := by
  unfold write_trim_data_to_obj
  rw [h]

theorem write_trim_of_derive_ok {α : Type} (chunk : TrimDataChunk α)
    (name : Option String) (off : Nat) (nm : String)
    (h : derive_name name chunk.material_name = .ok nm) :
    write_trim_data_to_obj chunk name off =
      .ok (ObjDirective.objectName nm :: vertex_directives chunk.vertexes
            ++ ObjDirective.useMaterial chunk.material_name
              :: face_directives chunk.indexes off,
           off + chunk.vertexes.length) := by
  unfold write_trim_data_to_obj
  rw [h]

/-! ### Claim theorems -/

/-- C1: the claim says `write_model_to_obj` returns the total vertex count
`Σ vi`, folding `write_trim_data_to_obj` with an accumulator starting at 0.
The code instead does `v_offset += write_trim_data_to_obj(...)`, adding the
callee's RETURN VALUE (already the new offset `v_offset + len(vertexes)`)
to the running offset.  Evaluated on a model of two one-vertex sub-meshes,
the code returns 3 while the total vertex count is 2. -/
theorem c1_model_offset_double_count :
    write_model_to_obj modelTwoUnitMeshes = Except.ok (modelTwoDirectives, 3) ∧
    totalVertexCount modelTwoUnitMeshes = 2 :=
  ⟨rfl, by decide⟩

/-- C2: the claim says the k-th sub-mesh's face indices are global, 1-based
and lie in `[Σ_{i<k} vi + 1, Σ_{i≤k} vi]`, the offset passed to the k-th
sub-mesh being the sum of the preceding vertex counts.  Because of the `+=`
accumulation in `write_model_to_obj`, the third one-vertex sub-mesh is
called with offset 3 instead of 2, so its face of local indices `(0,0,0)`
is emitted as global index 4 — outside the claimed block `[3, 3]` for a
model of total vertex count 3. -/
theorem c2_face_index_block_violation :
    write_model_to_obj modelThreeUnitMeshes = Except.ok (modelThreeDirectives, 7) ∧
    ObjDirective.indexFace 4 4 4 ∈ modelThreeDirectives ∧
    totalVertexCount modelThreeUnitMeshes = 3 :=
  ⟨rfl, by decide, by decide⟩

/-- C3 counterexample: the claim says an unsupported shader makes
`write_mtrl_to_mtl` fail before ANY directive for the material is emitted,
the material stream left unchanged.  On a material with shader `"foo"` the
code emits the default-texture directive first and only then raises, so
the stream holds one directive, not none. -/
theorem c3_default_directive_precedes_failure_counterexample :
    write_mtrl_to_mtl badShaderChunk none none true =
      ([MtlDirective.defaultTexture "mat"],
       some (WriterError.unsupportedShader "foo")) ∧
    [MtlDirective.defaultTexture "mat"] ≠ ([] : List MtlDirective) :=
  ⟨rfl, by decide⟩

/-- C3 amended: for every material whose shader-variant matches no
supported shader, `write_mtrl_to_mtl` fails with the unsupported-shader
error before any TEXTURE directive is emitted; exactly the default-texture
directive naming the material precedes the failure. -/
theorem c3_unsupported_shader_fail_fast_amended (chunk : MtrlChunk)
    (root ext : Option String) (fv : Bool)
    (h : ¬ (chunk.info.shader_name = "dow2_unit" ∨
            chunk.info.shader_name = "dow2_unit_2uv")) :
    write_mtrl_to_mtl chunk root ext fv =
      ([MtlDirective.defaultTexture chunk.name],
       some (WriterError.unsupportedShader chunk.info.shader_name)) := by
  have hs : ¬ shaderNameSupported chunk.info.shader_name = true :=
    fun hc => h ((shaderNameSupported_iff _).mp hc)
  unfold write_mtrl_to_mtl
  rw [fetch_mtrl_error chunk hs]

/-- C3 amended, witnessed at the concrete shader `"foo"`. -/
theorem c3_unsupported_shader_fail_fast_amended_witness :
    write_mtrl_to_mtl badShaderChunk none none true =
      ([MtlDirective.defaultTexture badShaderChunk.name],
       some (WriterError.unsupportedShader badShaderChunk.info.shader_name)) :=
  c3_unsupported_shader_fail_fast_amended badShaderChunk none none true (by decide)

/-- C4: `fetch_textures_from_mtrl` fails with the unsupported-shader error
carrying the shader string exactly when the material's shader-variant
matches neither `"dow2_unit"` nor `"dow2_unit_2uv"`; when it matches
either, it returns exactly the `fetch_textures_from_dow2_unit` extraction
of the material's variables. -/
theorem c4_shader_resolver_gate (chunk : MtrlChunk) :
    (¬ (chunk.info.shader_name = "dow2_unit" ∨
        chunk.info.shader_name = "dow2_unit_2uv") →
      fetch_textures_from_mtrl chunk =
        .error (.unsupportedShader chunk.info.shader_name)) ∧
    ((chunk.info.shader_name = "dow2_unit" ∨
      chunk.info.shader_name = "dow2_unit_2uv") →
      fetch_textures_from_mtrl chunk =
        .ok (fetch_textures_from_dow2_unit chunk.vars)) := by
  constructor
  · intro h
    exact fetch_mtrl_error chunk (fun hc => h ((shaderNameSupported_iff _).mp hc))
  · intro h
    exact fetch_mtrl_ok chunk ((shaderNameSupported_iff _).mpr h)

/-- C4, witnessed at the unsupported shader `"foo"` and the supported
shader `"dow2_unit"`. -/
theorem c4_shader_resolver_gate_witness :
    fetch_textures_from_mtrl badShaderChunk =
      .error (.unsupportedShader "foo") ∧
    fetch_textures_from_mtrl exampleDiffuseChunk =
      .ok (fetch_textures_from_dow2_unit exampleDiffuseChunk.vars) :=
  ⟨(c4_shader_resolver_gate badShaderChunk).1 (by decide),
   (c4_shader_resolver_gate exampleDiffuseChunk).2 (by decide)⟩

/-- C5: `fetch_textures_from_dow2_unit` agrees with the spec's wording of
`TextureSlotMapper.extract` on every variable sequence: non-Texture
variables are skipped, Texture variables with a canonical wire-string
property-name yield `(slot, argument)` in input order, and a Texture
variable with any other property-name fails with UnknownTextureSlot
carrying the offending string, with no output for that variable. -/
theorem c5_texture_slot_mapper_extract (vars : List VarChunk) :
    fetch_textures_from_dow2_unit vars = specTextureExtract vars := by
  induction vars with
  | nil => rfl
  | cons c rest ih =>
    by_cases hv : c.var_type = MaterialVarType.Texture
    · unfold fetch_textures_from_dow2_unit specTextureExtract
      rw [if_neg (fun hne => hne hv), if_pos hv, textureTypeLookup_eq_spec]
      cases hs : specSlotOfWire c.property_name with
      | none => rfl
      | some t =>
        show (⟨(t, c.args) :: (fetch_textures_from_dow2_unit rest).yields,
              (fetch_textures_from_dow2_unit rest).error⟩
                : GenResult (TextureType × String)) =
          ⟨(t, c.args) :: (specTextureExtract rest).yields,
           (specTextureExtract rest).error⟩
        rw [ih]
    · unfold fetch_textures_from_dow2_unit specTextureExtract
      rw [if_pos hv, if_neg hv]
      exact ih

/-- C6 counterexample: the claim says every call with a NON-`None` explicit
name unpacks the name string itself, raising `ValueError` whenever its
length is not 2.  The empty string is non-`None` yet falsy, so the code
falls through to the material name: with explicit name `""` (length 0) and
material `"a.b"` the call succeeds with label `"b"` instead of raising. -/
theorem c6_empty_explicit_name_counterexample :
    ("" : String).length ≠ 2 ∧
    write_trim_data_to_obj meshAB (some "") 0 =
      Except.ok ([ObjDirective.objectName "b", ObjDirective.useMaterial "a.b"], 0) :=
  ⟨by decide, rfl⟩

/-- C6 amended: for every call with a non-EMPTY explicit name `s`, the
name-derivation step unpacks `s` itself: `ValueError` whenever `s`'s length
is not exactly 2, and for length exactly 2 the emitted object label is the
second character of `s` (never `s` verbatim); with the name absent — or
empty, which Python truthiness treats as absent — `ValueError` is raised
whenever the material name contains no `'.'`. -/
theorem c6_truthy_explicit_name_unpack_amended {α : Type} (chunk : TrimDataChunk α)
    (off : Nat) (s : String) (hs : s ≠ "") :
    (s.length ≠ 2 → write_trim_data_to_obj chunk (some s) off = .error .valueError) ∧
    (∀ a b : Char, s.data = [a, b] →
      write_trim_data_to_obj chunk (some s) off =
        .ok (ObjDirective.objectName (String.mk [b]) :: vertex_directives chunk.vertexes
              ++ ObjDirective.useMaterial chunk.material_name
                :: face_directives chunk.indexes off,
             off + chunk.vertexes.length) ∧ String.mk [b] ≠ s) ∧
    (('.' : Char) ∉ chunk.material_name.data →
      write_trim_data_to_obj chunk none off = .error .valueError ∧
      write_trim_data_to_obj chunk (some "") off = .error .valueError) := by
  refine ⟨?_, ?_, ?_⟩
  · intro hlen
    apply write_trim_of_derive_error
    rw [derive_name_some s chunk.material_name hs]
    obtain ⟨l⟩ := s
    rw [unpack2_string_of_ne2 l (by simpa [String.length] using hlen)]
    rfl
  · intro a b hab
    constructor
    · apply write_trim_of_derive_ok
      rw [derive_name_some s chunk.material_name hs]
      obtain ⟨l⟩ := s
      cases hab
      rw [unpack2_string_pair a b]
      rfl
    · intro he
      have hlist : ([b] : List Char) = [a, b] := by
        rw [← hab, ← he]
      exact absurd hlist (by simp)
  · intro hdot
    constructor
    · apply write_trim_of_derive_error
      rw [derive_name_none, name_from_material_no_dot _ hdot]
    · apply write_trim_of_derive_error
      rw [derive_name_some_empty, name_from_material_no_dot _ hdot]

/-- C6 amended, witnessed at the explicit name `"xy"` (length 2): the
emitted label is the second character `"y"`, not `"xy"`. -/
theorem c6_truthy_explicit_name_unpack_amended_witness :
    ("xy" : String) ≠ "" ∧
    write_trim_data_to_obj meshAB (some "xy") 0 =
      Except.ok ([ObjDirective.objectName "y", ObjDirective.useMaterial "a.b"], 0) :=
  ⟨by decide,
   (((c6_truthy_explicit_name_unpack_amended meshAB 0 "xy" (by decide)).2.1)
     'x' 'y' (by decide)).1⟩

/-- C7: with the explicit name absent and a material name of the form
`pre ++ "." ++ suf` with dot-free `suf` (split on the LAST `'.'`), the
emitted object label is the suffix `suf`, while the material-use directive
names the material name verbatim. -/
theorem c7_object_label_from_material_suffix {α : Type} (chunk : TrimDataChunk α)
    (off : Nat) (pre suf : List Char)
    (hmat : chunk.material_name.data = pre ++ '.' :: suf)
    (hsuf : ('.' : Char) ∉ suf) :
    write_trim_data_to_obj chunk none off =
      .ok (ObjDirective.objectName (String.mk suf) :: vertex_directives chunk.vertexes
            ++ ObjDirective.useMaterial chunk.material_name
              :: face_directives chunk.indexes off,
           off + chunk.vertexes.length) := by
  apply write_trim_of_derive_ok
  rw [derive_name_none, name_from_material_dot chunk.material_name pre suf hmat hsuf]

/-- C7, witnessed at material `"teamcolor.helmet"`: label `"helmet"`,
material-use directive `"teamcolor.helmet"`. -/
theorem c7_object_label_from_material_suffix_witness :
    write_trim_data_to_obj meshTeamcolor none 0 =
      Except.ok ([ObjDirective.objectName "helmet",
                  ObjDirective.useMaterial "teamcolor.helmet"], 0) :=
  c7_object_label_from_material_suffix meshTeamcolor 0 "teamcolor".data "helmet".data
    (by decide) (by decide)

/-- C8: a Diffuse pair reaching the dispatch contributes exactly two
directives — diffuse-color map then alpha map — both carrying the identical
resolved path `resolve_full_texture root ext fv path`; and on the spec's
scenario (shader `"dow2_unit"`, Texture variable
`("diffuseTex", "tex/rifle_d")`, root `"textures"`, ext `".dds"`) both
directives reference `"textures/tex/rifle_d.dds"`. -/
theorem c8_diffuse_emits_color_and_alpha :
    (∀ (root : Option String) (ext : String) (fv : Bool) (path : String)
        (rest : List (TextureType × String)),
      emit_textures root ext fv ((TextureType.Diffuse, path) :: rest) =
        (MtlDirective.textureDiffuse (resolve_full_texture root ext fv path)
          :: MtlDirective.textureAlpha (resolve_full_texture root ext fv path)
          :: (emit_textures root ext fv rest).1,
         (emit_textures root ext fv rest).2)) ∧
    write_mtrl_to_mtl exampleDiffuseChunk (some "textures") (some ".dds") true =
      ([MtlDirective.defaultTexture "mat",
        MtlDirective.textureDiffuse "textures/tex/rifle_d.dds",
        MtlDirective.textureAlpha "textures/tex/rifle_d.dds"], none) := by
  constructor
  · intro root ext fv path rest
    rfl
  · rfl

/-- C9 counterexample: the claim says sanitization leaves directory
components unchanged.  On `"a//b c"` (no root, no extension) the split/join
round trip collapses the duplicate slash: the code yields `"a/b_c"`, not
the `"a//b_c"` the claim's wording (`specSanitize`) prescribes. -/
theorem c9_double_slash_counterexample :
    resolve_full_texture none "" true "a//b c" = "a/b_c" ∧
    specSanitize "a//b c" = "a//b_c" ∧
    ("a/b_c" : String) ≠ "a//b_c" :=
  ⟨rfl, rfl, by decide⟩

/-- C9 amended: when sanitizing, spaces are replaced by underscores in the
final path segment only and everything before it is kept, PROVIDED the
portion before the final segment is all slashes or does not end in a
duplicate slash (`sanitizeFaithful`); a duplicate separator right before
the final segment is otherwise collapsed by the split/join round trip. -/
theorem c9_sanitize_final_segment_amended (p : String)
    (h : sanitizeFaithful p = true) :
    sanitize_segment p = specSanitize p := by
  unfold sanitizeFaithful at h
  cases hr : rsplitChar '/' p.data with
  | none =>
    unfold sanitize_segment specSanitize
    rw [psplitL_none p.data hr, hr]
    show String.mk (pjoinL [] (replaceSpaces p.data)) = String.mk (replaceSpaces p.data)
    rw [pjoinL_nil_left]
  | some pr =>
    obtain ⟨l, r⟩ := pr
    rw [hr] at h
    have hnr : ('/' : Char) ∉ r := rsplitChar_not_mem_right '/' p.data l r hr
    have hb := replaceSpaces_head_ne_slash r hnr
    unfold sanitize_segment specSanitize
    rw [psplitL_some p.data l r hr, hr]
    by_cases hall : (l ++ ['/']).all (fun c => c = '/') = true
    · rw [if_pos hall]
      show String.mk (pjoinL (l ++ ['/']) (replaceSpaces r)) =
        String.mk (l ++ '/' :: replaceSpaces r)
      rw [pjoinL_slash_last _ _ (getLast_append_slash l) hb, List.append_assoc]
      rfl
    · rw [if_neg hall]
      show String.mk (pjoinL (rstripSlashes (l ++ ['/'])) (replaceSpaces r)) =
        String.mk (l ++ '/' :: replaceSpaces r)
      have hlast : l.getLast? ≠ some '/' := by
        simp only [Bool.or_eq_true, bne_iff_ne] at h
        rcases h with h | h
        · exact absurd h hall
        · exact h
      have hne : l ≠ [] := by
        intro hl
        subst hl
        exact hall (by decide)
      rw [rstripSlashes_append_slash l hlast, pjoinL_no_slash_last l _ hne hlast hb]

/-- C9 amended, witnessed at the spec's example `"tex dir/rifle helmet"`:
only the final segment is sanitized, giving `"tex dir/rifle_helmet"`. -/
theorem c9_sanitize_final_segment_amended_witness :
    sanitizeFaithful "tex dir/rifle helmet" = true ∧
    sanitize_segment "tex dir/rifle helmet" = specSanitize "tex dir/rifle helmet" ∧
    sanitize_segment "tex dir/rifle helmet" = "tex dir/rifle_helmet" :=
  ⟨by decide, c9_sanitize_final_segment_amended "tex dir/rifle helmet" (by decide),
   by decide⟩

/-- C10: every slot reaching `write_mtrl_to_mtl`'s dispatch is one of the
ten enumerated `TextureType` members, each handled by an explicit branch,
so the final `else` is unreachable: no dispatch outcome and no
`write_mtrl_to_mtl` run ever carries the unsupported-slot error. -/
theorem c10_unsupported_texture_slot_unreachable :
    (∀ (t : TextureType) (full : String),
      dispatch_texture t full ≠ Except.error WriterError.unsupportedTextureSlot) ∧
    (∀ (chunk : MtrlChunk) (root ext : Option String) (fv : Bool),
      (write_mtrl_to_mtl chunk root ext fv).2 ≠
        some WriterError.unsupportedTextureSlot) := by
  constructor
  · intro t full
    obtain ⟨ds, hd⟩ := dispatch_texture_ok t full
    rw [hd]
    exact fun hc => Except.noConfusion hc
  · intro chunk root ext fv
    by_cases hs : shaderNameSupported chunk.info.shader_name = true
    · rw [write_mtrl_ok_shape chunk root ext fv hs]
      show ((emit_textures root (ext.getD "") fv
              (fetch_textures_from_dow2_unit chunk.vars).yields).2
            <|> (fetch_textures_from_dow2_unit chunk.vars).error) ≠
          some WriterError.unsupportedTextureSlot
      cases he : (emit_textures root (ext.getD "") fv
          (fetch_textures_from_dow2_unit chunk.vars).yields).2 with
      | some x =>
        have hne := emit_textures_error_ne_slot root (ext.getD "") fv
          (fetch_textures_from_dow2_unit chunk.vars).yields
        rw [he] at hne
        simpa using hne
      | none =>
        simpa using gen_error_ne_slot chunk.vars
    · unfold write_mtrl_to_mtl
      rw [fetch_mtrl_error chunk hs]
      intro hc
      have hc2 : some (WriterError.unsupportedShader chunk.info.shader_name) =
          some WriterError.unsupportedTextureSlot := hc
      injection hc2 with hc3
      exact WriterError.noConfusion hc3

/-- C10, witnessed at the Team slot and at a concrete supported
material. -/
theorem c10_unsupported_texture_slot_unreachable_witness :
    dispatch_texture TextureType.Team "p" ≠
      Except.error WriterError.unsupportedTextureSlot ∧
    (write_mtrl_to_mtl exampleDiffuseChunk none none false).2 ≠
      some WriterError.unsupportedTextureSlot :=
  ⟨c10_unsupported_texture_slot_unreachable.1 TextureType.Team "p",
   c10_unsupported_texture_slot_unreachable.2 exampleDiffuseChunk none none false⟩

end Dow2Writer
